import Mathlib

/-!
Verification of the neonatal early-onset sepsis risk calculator
(`src/App.js`).  The calculator's numeric core works on JavaScript
numbers; we model those as exact rationals extended with the IEEE
special values `NaN`, `+Infinity` and `-Infinity`, with the usual
propagation rules.  All constants appearing in the program are small
decimal literals that are handled exactly by this model.
-/

namespace NeonatalEOS

/-- Model of a JavaScript number: an exact rational, or one of the IEEE
special values `NaN`, `+Infinity`, `-Infinity`. -/
inductive JSNum where
  | num (q : ℚ)
  | nan
  | inf
  | ninf
deriving DecidableEq, Repr

/-- JavaScript `isNaN` applied to a number value. -/
def JSNum.isNaN : JSNum → Bool
  | .nan => true
  | _ => false

/-- IEEE negation. -/
def JSNum.neg : JSNum → JSNum
  | .num a => .num (-a)
  | .nan => .nan
  | .inf => .ninf
  | .ninf => .inf

/-- IEEE addition on the model (`Infinity + -Infinity = NaN`, `NaN`
propagates, finite values add exactly). -/
def JSNum.add : JSNum → JSNum → JSNum
  | .nan, _ => .nan
  | _, .nan => .nan
  | .inf, .ninf => .nan
  | .ninf, .inf => .nan
  | .inf, _ => .inf
  | _, .inf => .inf
  | .ninf, _ => .ninf
  | _, .ninf => .ninf
  | .num a, .num b => .num (a + b)

/-- IEEE subtraction, as addition of the negation. -/
def JSNum.sub (a b : JSNum) : JSNum := a.add b.neg

/-- IEEE multiplication on the model (`Infinity * 0 = NaN`, sign rules
for infinities, `NaN` propagates, finite values multiply exactly). -/
def JSNum.mul : JSNum → JSNum → JSNum
  | .nan, _ => .nan
  | _, .nan => .nan
  | .inf, .inf => .inf
  | .inf, .ninf => .ninf
  | .ninf, .inf => .ninf
  | .ninf, .ninf => .inf
  | .inf, .num b => if b = 0 then .nan else if 0 < b then .inf else .ninf
  | .num a, .inf => if a = 0 then .nan else if 0 < a then .inf else .ninf
  | .ninf, .num b => if b = 0 then .nan else if 0 < b then .ninf else .inf
  | .num a, .ninf => if a = 0 then .nan else if 0 < a then .ninf else .inf
  | .num a, .num b => .num (a * b)

/-- IEEE division on the model.  Division of a nonzero finite value by
zero yields a signed infinity (JavaScript's literal `0` is `+0`);
`0 / 0` and `Infinity / Infinity` yield `NaN`; a finite value divided
by an infinity yields `0`. -/
def JSNum.div : JSNum → JSNum → JSNum
  | .nan, _ => .nan
  | _, .nan => .nan
  | .inf, .inf => .nan
  | .inf, .ninf => .nan
  | .ninf, .inf => .nan
  | .ninf, .ninf => .nan
  | .inf, .num b => if 0 ≤ b then .inf else .ninf
  | .ninf, .num b => if 0 ≤ b then .ninf else .inf
  | .num _, .inf => .num 0
  | .num _, .ninf => .num 0
  | .num a, .num b =>
    if b = 0 then (if a = 0 then .nan else if 0 < a then .inf else .ninf)
    else .num (a / b)

/-- JavaScript strict `<` on numbers: any comparison with `NaN` is
false. -/
def JSNum.lt : JSNum → JSNum → Bool
  | .nan, _ => false
  | _, .nan => false
  | .inf, _ => false
  | _, .inf => true
  | _, .ninf => false
  | .ninf, _ => true
  | .num a, .num b => decide (a < b)

/-- JavaScript `<=` on numbers: any comparison with `NaN` is false. -/
def JSNum.le : JSNum → JSNum → Bool
  | .nan, _ => false
  | _, .nan => false
  | _, .inf => true
  | .inf, _ => false
  | .ninf, _ => true
  | _, .ninf => false
  | .num a, .num b => decide (a ≤ b)

/-- JavaScript `>` on numbers. -/
def JSNum.gt (a b : JSNum) : Bool := JSNum.lt b a

/-- JavaScript `>=` on numbers. -/
def JSNum.ge (a b : JSNum) : Bool := JSNum.le b a

/-- Numeric value of a list of decimal digit characters. -/
def natOfDigits (ds : List Char) : ℕ :=
  ds.foldl (fun a c => 10 * a + (c.toNat - 48)) 0

/-- Split a character list into its longest digit prefix and the rest. -/
def takeDigits : List Char → List Char × List Char
  | [] => ([], [])
  | c :: cs =>
    if c.isDigit then
      let p := takeDigits cs
      (c :: p.1, p.2)
    else ([], c :: cs)

/-- Parse an unsigned decimal literal (`digits`, `digits.digits`,
`.digits`, `digits.`) from the front of a character list; `none` when no
digits are present. -/
def parseUnsigned (cs : List Char) : Option ℚ :=
  let p := takeDigits cs
  match p.2 with
  | '.' :: r2 =>
    let f := takeDigits r2
    if p.1.isEmpty && f.1.isEmpty then none
    else some ((natOfDigits p.1 : ℚ) + (natOfDigits f.1 : ℚ) / ((10 : ℚ) ^ f.1.length))
  | _ => if p.1.isEmpty then none else some (natOfDigits p.1)

/-- Model of JavaScript `parseFloat`, restricted to the decimal grammar
exercised by this application: optional leading whitespace, optional
sign, then either the literal `Infinity` or a plain decimal number
(no exponent or hexadecimal forms, which never arise here).  Returns
`NaN` when no numeric prefix can be parsed — exactly `parseFloat`'s
failure behaviour. -/
def parseFloatChars (cs0 : List Char) : JSNum :=
  let cs1 := cs0.dropWhile Char.isWhitespace
  let sp : Bool × List Char :=
    match cs1 with
    | '-' :: t => (true, t)
    | '+' :: t => (false, t)
    | _ => (false, cs1)
  if sp.2.take 8 = "Infinity".data then (if sp.1 then .ninf else .inf)
  else
    match parseUnsigned sp.2 with
    | some q => .num (if sp.1 then -q else q)
    | none => .nan

/-- String front end of the `parseFloat` model. -/
def parseFloat (s : String) : JSNum := parseFloatChars s.data

/-- Render a quantity of hundredths as a fixed-point decimal with
exactly two digits after the decimal point (the `d.dd` shape produced
by `toFixed(2)` on a non-negative number). -/
def fmt2 (n : ℕ) : String :=
  toString (n / 100) ++ "." ++
    (if n % 100 < 10 then "0" ++ toString (n % 100) else toString (n % 100))

/-- Round a rational to the nearest integer number of hundredths, ties
away from zero for the magnitude — the rounding performed by
`toFixed(2)` (the ECMAScript algorithm picks the larger candidate `n`
on a tie, applied to the absolute value). -/
def round2 (x : ℚ) : ℤ := ⌊x * 100 + 1 / 2⌋

/-- Model of JavaScript `Number.prototype.toFixed(2)`: `NaN` prints as
`NaN`, infinities print as `Infinity` / `-Infinity`, and a finite value
prints sign first, then its magnitude rounded to hundredths in
fixed-point notation with exactly two fractional digits. -/
def JSNum.toFixed2 : JSNum → String
  | .nan => "NaN"
  | .inf => "Infinity"
  | .ninf => "-Infinity"
  | .num q =>
    if q < 0 then "-" ++ fmt2 (round2 (-q)).toNat else fmt2 (round2 q).toNat

/-! ## The likelihood-ratio table (`LIKELIHOOD_RATIOS`, App.js lines 6–40) -/

/-- Sub-table `LIKELIHOOD_RATIOS.gestationalAge`. -/
def LIKELIHOOD_RATIOS_gestationalAge : List (String × ℚ) :=
  [("≥42", 1.4), ("41 0/7-41 6/7", 1.1), ("40 0/7-40 6/7", 0.8),
   ("39 0/7-39 6/7", 0.6), ("38 0/7-38 6/7", 0.5), ("37 0/7-37 6/7", 0.4),
   ("36 0/7-36 6/7", 0.7), ("35 0/7-35 6/7", 1.3), ("≤34 6/7", 2.3)]

/-- Sub-table `LIKELIHOOD_RATIOS.rom`. -/
def LIKELIHOOD_RATIOS_rom : List (String × ℚ) :=
  [("<12", 0.6), ("12-18", 1.3), ("18-24", 1.7), (">24", 2.1)]

/-- Sub-table `LIKELIHOOD_RATIOS.highestTemp`. -/
def LIKELIHOOD_RATIOS_highestTemp : List (String × ℚ) :=
  [("<38", 0.4), ("≥38", 3.7)]

/-- Sub-table `LIKELIHOOD_RATIOS.gbsStatus`. -/
def LIKELIHOOD_RATIOS_gbsStatus : List (String × ℚ) :=
  [("positive", 2.0), ("negative", 0.4), ("unknown", 1.0)]

/-- Sub-table `LIKELIHOOD_RATIOS.iap`. -/
def LIKELIHOOD_RATIOS_iap : List (String × ℚ) :=
  [("adequate_pen_amp", 0.2), ("adequate_cefazolin", 0.4),
   ("adequate_clinda_vanco", 0.9), ("inadequate_or_no", 1.0),
   ("no_iap_needed", 1.0)]

/-- JavaScript object property access on a sub-table: `some` LR when the
key is present, `none` (JavaScript `undefined`) otherwise. -/
def tableLookup (t : List (String × ℚ)) (k : String) : Option ℚ :=
  (t.find? (fun p => p.1 == k)).map (fun p => p.2)

/-- Coercion of a property-access result into a numeric context:
`undefined` coerces to `NaN` in JavaScript arithmetic. -/
def toJSNum : Option ℚ → JSNum
  | some q => .num q
  | none => .nan

/-! ## Enumerated codes offered by the UI selects (App.js lines 158–218) -/

/-- Gestational-age codes offered by the UI. -/
def gestationalAgeCodes : List String :=
  ["≤34 6/7", "35 0/7-35 6/7", "36 0/7-36 6/7", "37 0/7-37 6/7",
   "38 0/7-38 6/7", "39 0/7-39 6/7", "40 0/7-40 6/7", "41 0/7-41 6/7", "≥42"]

/-- Temperature codes offered by the UI. -/
def highestTempCodes : List String := ["<38", "≥38"]

/-- Rupture-of-membranes codes offered by the UI. -/
def romCodes : List String := ["<12", "12-18", "18-24", ">24"]

/-- GBS status codes offered by the UI. -/
def gbsStatusCodes : List String := ["positive", "negative", "unknown"]

/-- IAP codes offered by the UI. -/
def iapCodes : List String :=
  ["no_iap_needed", "adequate_pen_amp", "adequate_cefazolin",
   "adequate_clinda_vanco", "inadequate_or_no"]

/-- Incidence preset codes offered by the UI. -/
def incidencePresets : List String := ["0.2", "0.3", "0.5", "0.7", "1.0"]

/-! ## The risk computation (`sepsisRisk` useMemo, App.js lines 57–74) -/

/-- The incidence guard of line 59:
`isNaN(numericIncidence) || numericIncidence <= 0`. -/
def incidenceInvalid (v : JSNum) : Bool := v.isNaN || v.le (.num 0)

/-- The effective IAP likelihood ratio of line 67:
`iap === 'no_iap_needed' || gbsStatus !== 'positive' ? 1.0 :
LIKELIHOOD_RATIOS.iap[iap]`. -/
def lrIapEffective (gbsStatus iap : String) : JSNum :=
  if iap = "no_iap_needed" ∨ gbsStatus ≠ "positive" then .num 1
  else toJSNum (tableLookup LIKELIHOOD_RATIOS_iap iap)

/-- Lines 61–73 of the source: the numeric pipeline run after the
incidence guard, producing the value passed to `toFixed(2)`. -/
def sepsisRiskValue (numericIncidence : JSNum)
    (gestationalAge highestTemp rom gbsStatus iap : String) : JSNum :=
  let priorOdds := numericIncidence.div ((JSNum.num 1000).sub numericIncidence)
  let lrGestationalAge := toJSNum (tableLookup LIKELIHOOD_RATIOS_gestationalAge gestationalAge)
  let lrHighestTemp := toJSNum (tableLookup LIKELIHOOD_RATIOS_highestTemp highestTemp)
  let lrRom := toJSNum (tableLookup LIKELIHOOD_RATIOS_rom rom)
  let lrGbsStatus := toJSNum (tableLookup LIKELIHOOD_RATIOS_gbsStatus gbsStatus)
  let lrIap := lrIapEffective gbsStatus iap
  let combinedLR := (((lrGestationalAge.mul lrHighestTemp).mul lrRom).mul lrGbsStatus).mul lrIap
  let posteriorOdds := priorOdds.mul combinedLR
  let posteriorProbability := posteriorOdds.div ((JSNum.num 1).add posteriorOdds)
  posteriorProbability.mul (.num 1000)

/-- The `sepsisRisk` computation on an already-parsed incidence: the
guard of lines 58–59 followed by the numeric pipeline and `toFixed(2)`
of line 73. -/
def sepsisRiskNum (numericIncidence : JSNum)
    (gestationalAge highestTemp rom gbsStatus iap : String) : String :=
  if incidenceInvalid numericIncidence then "0.00"
  else (sepsisRiskValue numericIncidence gestationalAge highestTemp rom gbsStatus iap).toFixed2

/-- The full `sepsisRisk` computation (App.js lines 57–74), from the raw
incidence string held in component state. -/
def sepsisRisk (incidence gestationalAge highestTemp rom gbsStatus iap : String) : String :=
  sepsisRiskNum (parseFloat incidence) gestationalAge highestTemp rom gbsStatus iap

/-! ## The recommendation policy (`recommendation` useMemo, App.js lines 77–82) -/

/-- Lines 79–81: the threshold classifier applied to the parsed risk. -/
def classify (risk : JSNum) : String :=
  if risk.gt (.num 1.18) then "Empiric Antibiotics Recommended"
  else if risk.ge (.num 0.65) && risk.le (.num 1.18) then "Enhanced Vital Signs"
  else "Routine Care"

/-- Lines 77–82: `parseFloat(sepsisRisk)` followed by the classifier. -/
def recommendation (sepsisRiskStr : String) : String :=
  classify (parseFloat sepsisRiskStr)

/-! ## Form state and the GBS → IAP synchronisation (App.js lines 49–99, 205–218) -/

/-- The six pieces of component state (lines 49–54). -/
structure FormState where
  incidence : String
  gestationalAge : String
  highestTemp : String
  rom : String
  gbsStatus : String
  iap : String
deriving DecidableEq, Repr

/-- The initial state of lines 49–54 (also the state `handleReset`
restores, lines 85–92). -/
def initialState : FormState :=
  ⟨"0.5", "≥42", "<38", "<12", "negative", "no_iap_needed"⟩

/-- The `useEffect` of lines 95–99: after a GBS status change, reset
`iap` to `no_iap_needed` whenever the new GBS status is not
`positive`. -/
def syncIapEffect (s : FormState) : FormState :=
  if s.gbsStatus ≠ "positive" then { s with iap := "no_iap_needed" } else s

/-- The input events the UI can deliver: one setter per select, plus
the reset button. -/
inductive Event where
  | setIncidence (v : String)
  | setGestationalAge (v : String)
  | setHighestTemp (v : String)
  | setRom (v : String)
  | setGbsStatus (v : String)
  | setIap (v : String)
  | reset

/-- One settled step of the component: apply the event's state update,
then any effect it triggers.  A GBS change runs the `useEffect` sync;
the IAP select only delivers events while enabled, i.e. while
`gbsStatus === 'positive'` (line 217), so an IAP event outside that
condition leaves the state unchanged; reset restores the initial
state. -/
def applyEvent (s : FormState) : Event → FormState
  | .setIncidence v => { s with incidence := v }
  | .setGestationalAge v => { s with gestationalAge := v }
  | .setHighestTemp v => { s with highestTemp := v }
  | .setRom v => { s with rom := v }
  | .setGbsStatus v => syncIapEffect { s with gbsStatus := v }
  | .setIap v => if s.gbsStatus = "positive" then { s with iap := v } else s
  | .reset => initialState

/-- States reachable from the initial state by UI events. -/
inductive Reachable : FormState → Prop where
  | init : Reachable initialState
  | step (s : FormState) : Reachable s → ∀ e : Event, Reachable (applyEvent s e)

/-- The cross-field invariant: outside GBS-positive states the IAP
selection is pinned to `no_iap_needed`. -/
def gbsIapInvariant (s : FormState) : Prop :=
  s.gbsStatus ≠ "positive" → s.iap = "no_iap_needed"

/-! ## Specification-side definitions (for the refinement claim C1) -/

/-- Specification §4.2 step 4, over exact rationals: the effective IAP
likelihood ratio. -/
def lrIapEffectiveSpec (gbsStatus iap : String) : ℚ :=
  if iap = "no_iap_needed" ∨ gbsStatus ≠ "positive" then 1
  else (tableLookup LIKELIHOOD_RATIOS_iap iap).getD 0

/-- Specification §4.2 steps 2 and 5–8 over exact rationals: prior odds,
combined likelihood ratio, posterior odds, posterior probability, and
the final scaling to risk per 1000 births. -/
def computeRiskValueSpec (incidence lrGA lrTemp lrRom lrGbs lrIapEff : ℚ) : ℚ :=
  let priorOdds := incidence / (1000 - incidence)
  let combinedLR := lrGA * lrTemp * lrRom * lrGbs * lrIapEff
  let posteriorOdds := priorOdds * combinedLR
  let posteriorProbability := posteriorOdds / (1 + posteriorOdds)
  posteriorProbability * 1000

/-- The algorithm of specification §4.2, written from the spec's words:
validate the incidence, look up the four direct likelihood ratios,
compute the effective IAP ratio, combine, and round the scaled
posterior probability to exactly two decimal places. -/
def computeRiskSpec (incidence : ℚ)
    (gestationalAge highestTemp rom gbsStatus iap : String) : String :=
  if incidence ≤ 0 then "0.00"
  else
    let lrGA := (tableLookup LIKELIHOOD_RATIOS_gestationalAge gestationalAge).getD 0
    let lrTemp := (tableLookup LIKELIHOOD_RATIOS_highestTemp highestTemp).getD 0
    let lrRom := (tableLookup LIKELIHOOD_RATIOS_rom rom).getD 0
    let lrGbs := (tableLookup LIKELIHOOD_RATIOS_gbsStatus gbsStatus).getD 0
    fmt2 (round2 (computeRiskValueSpec incidence lrGA lrTemp lrRom lrGbs
      (lrIapEffectiveSpec gbsStatus iap))).toNat

/-! ## Helper lemmas -/

theorem JSNum.nan_mul (x : JSNum) : JSNum.nan.mul x = .nan := by cases x <;> rfl

theorem JSNum.mul_nan (x : JSNum) : x.mul .nan = .nan := by cases x <;> rfl

theorem JSNum.add_nan (x : JSNum) : x.add .nan = .nan := by cases x <;> rfl

theorem JSNum.nan_div (x : JSNum) : JSNum.nan.div x = .nan := by cases x <;> rfl

theorem JSNum.num_mul_num (a b : ℚ) : (JSNum.num a).mul (.num b) = .num (a * b) := rfl

theorem JSNum.num_add_num (a b : ℚ) : (JSNum.num a).add (.num b) = .num (a + b) := rfl

theorem JSNum.num_sub_num (a b : ℚ) : (JSNum.num a).sub (.num b) = .num (a - b) := by
  show JSNum.num (a + -b) = _
  rw [← sub_eq_add_neg]

theorem JSNum.num_div_num (a b : ℚ) (hb : b ≠ 0) :
    (JSNum.num a).div (.num b) = .num (a / b) := by
  simp [JSNum.div, hb]

theorem incidenceInvalid_num (q : ℚ) : incidenceInvalid (.num q) = decide (q ≤ 0) := rfl

theorem toFixed2_nonneg (x : ℚ) (hx : 0 ≤ x) :
    (JSNum.num x).toFixed2 = fmt2 (round2 x).toNat := by
  simp [JSNum.toFixed2, not_lt.2 hx]

theorem gaLookup_pos {c : String} (hc : c ∈ gestationalAgeCodes) :
    ∃ g : ℚ, tableLookup LIKELIHOOD_RATIOS_gestationalAge c = some g ∧ 0 < g := by
  fin_cases hc <;> exact ⟨_, rfl, by norm_num⟩

theorem tempLookup_pos {c : String} (hc : c ∈ highestTempCodes) :
    ∃ t : ℚ, tableLookup LIKELIHOOD_RATIOS_highestTemp c = some t ∧ 0 < t := by
  fin_cases hc <;> exact ⟨_, rfl, by norm_num⟩

theorem romLookup_pos {c : String} (hc : c ∈ romCodes) :
    ∃ r : ℚ, tableLookup LIKELIHOOD_RATIOS_rom c = some r ∧ 0 < r := by
  fin_cases hc <;> exact ⟨_, rfl, by norm_num⟩

theorem gbsLookup_pos {c : String} (hc : c ∈ gbsStatusCodes) :
    ∃ w : ℚ, tableLookup LIKELIHOOD_RATIOS_gbsStatus c = some w ∧ 0 < w := by
  fin_cases hc <;> exact ⟨_, rfl, by norm_num⟩

theorem iapEffective_pos (gbs : String) {c : String} (hc : c ∈ iapCodes) :
    ∃ i : ℚ, lrIapEffective gbs c = .num i ∧ 0 < i ∧ lrIapEffectiveSpec gbs c = i := by
  by_cases h : c = "no_iap_needed" ∨ gbs ≠ "positive"
  · exact ⟨1, by simp only [lrIapEffective, if_pos h], one_pos,
      by simp only [lrIapEffectiveSpec, if_pos h]⟩
  · push_neg at h
    obtain ⟨hc', hgbs⟩ := h
    subst hgbs
    fin_cases hc
    · exact absurd rfl hc'
    · exact ⟨0.2, rfl, by norm_num, rfl⟩
    · exact ⟨0.4, rfl, by norm_num, rfl⟩
    · exact ⟨0.9, rfl, by norm_num, rfl⟩
    · exact ⟨1.0, rfl, by norm_num, rfl⟩

theorem sepsisRiskValue_eval (q g t r w i : ℚ) (ga ht rm gbs ia : String)
    (hga : tableLookup LIKELIHOOD_RATIOS_gestationalAge ga = some g)
    (hht : tableLookup LIKELIHOOD_RATIOS_highestTemp ht = some t)
    (hrm : tableLookup LIKELIHOOD_RATIOS_rom rm = some r)
    (hgbs : tableLookup LIKELIHOOD_RATIOS_gbsStatus gbs = some w)
    (hia : lrIapEffective gbs ia = .num i)
    (h0 : 0 < q) (h1 : q < 1000) (hL : 0 < g * t * r * w * i) :
    sepsisRiskValue (.num q) ga ht rm gbs ia = .num (computeRiskValueSpec q g t r w i) := by
  have hden : (1000 : ℚ) - q ≠ 0 := ne_of_gt (by linarith)
  have hP : 0 < q / (1000 - q) := div_pos h0 (by linarith)
  have hpo : 0 < q / (1000 - q) * (g * t * r * w * i) := mul_pos hP hL
  have hden2 : (1 : ℚ) + q / (1000 - q) * (g * t * r * w * i) ≠ 0 := ne_of_gt (by linarith)
  simp only [sepsisRiskValue, hga, hht, hrm, hgbs, hia, toJSNum]
  rw [JSNum.num_sub_num, JSNum.num_div_num _ _ hden]
  simp only [JSNum.num_mul_num]
  rw [JSNum.num_add_num, JSNum.num_div_num _ _ hden2]
  simp only [JSNum.num_mul_num, computeRiskValueSpec]

theorem computeRiskValueSpec_pos (q g t r w i : ℚ) (h0 : 0 < q) (h1 : q < 1000)
    (hL : 0 < g * t * r * w * i) : 0 < computeRiskValueSpec q g t r w i := by
  have hP : 0 < q / (1000 - q) := div_pos h0 (by linarith)
  have hpo : 0 < q / (1000 - q) * (g * t * r * w * i) := mul_pos hP hL
  have hd : 0 < 1 + q / (1000 - q) * (g * t * r * w * i) := by linarith
  simp only [computeRiskValueSpec]
  exact mul_pos (div_pos hpo hd) (by norm_num)

theorem sepsisRiskNum_eval (q g t r w i : ℚ) (ga ht rm gbs ia : String)
    (hga : tableLookup LIKELIHOOD_RATIOS_gestationalAge ga = some g)
    (hht : tableLookup LIKELIHOOD_RATIOS_highestTemp ht = some t)
    (hrm : tableLookup LIKELIHOOD_RATIOS_rom rm = some r)
    (hgbs : tableLookup LIKELIHOOD_RATIOS_gbsStatus gbs = some w)
    (hia : lrIapEffective gbs ia = .num i)
    (h0 : 0 < q) (h1 : q < 1000) (hL : 0 < g * t * r * w * i) :
    sepsisRiskNum (.num q) ga ht rm gbs ia =
      fmt2 (round2 (computeRiskValueSpec q g t r w i)).toNat := by
  have hg : incidenceInvalid (.num q) = false := by
    rw [incidenceInvalid_num, decide_eq_false_iff_not]
    exact not_le.2 h0
  rw [sepsisRiskNum, hg, sepsisRiskValue_eval q g t r w i ga ht rm gbs ia hga hht hrm hgbs hia h0 h1 hL,
    toFixed2_nonneg _ (le_of_lt (computeRiskValueSpec_pos q g t r w i h0 h1 hL))]
  simp

theorem computeRiskSpec_eval (q g t r w i : ℚ) (ga ht rm gbs ia : String)
    (hga : tableLookup LIKELIHOOD_RATIOS_gestationalAge ga = some g)
    (hht : tableLookup LIKELIHOOD_RATIOS_highestTemp ht = some t)
    (hrm : tableLookup LIKELIHOOD_RATIOS_rom rm = some r)
    (hgbs : tableLookup LIKELIHOOD_RATIOS_gbsStatus gbs = some w)
    (hia : lrIapEffectiveSpec gbs ia = i) (h0 : 0 < q) :
    computeRiskSpec q ga ht rm gbs ia =
      fmt2 (round2 (computeRiskValueSpec q g t r w i)).toNat := by
  simp only [computeRiskSpec, hga, hht, hrm, hgbs, hia, Option.getD_some,
    if_neg (not_le.2 h0)]

theorem computeRiskValueSpec_lt (x y g t r w i : ℚ) (hx : 0 < x) (hxy : x < y)
    (hy : y < 1000) (hL : 0 < g * t * r * w * i) :
    computeRiskValueSpec x g t r w i < computeRiskValueSpec y g t r w i := by
  have hx1000 : x < 1000 := lt_trans hxy hy
  have hPx : 0 < x / (1000 - x) := div_pos hx (by linarith)
  have hPy : 0 < y / (1000 - y) := div_pos (by linarith) (by linarith)
  have hP : x / (1000 - x) < y / (1000 - y) := by
    rw [div_lt_div_iff₀ (by linarith) (by linarith)]
    nlinarith
  have hpo : x / (1000 - x) * (g * t * r * w * i) < y / (1000 - y) * (g * t * r * w * i) :=
    mul_lt_mul_of_pos_right hP hL
  have h1x : 0 < 1 + x / (1000 - x) * (g * t * r * w * i) := by nlinarith
  have h1y : 0 < 1 + y / (1000 - y) * (g * t * r * w * i) := by nlinarith
  have hfrac : x / (1000 - x) * (g * t * r * w * i) / (1 + x / (1000 - x) * (g * t * r * w * i)) <
      y / (1000 - y) * (g * t * r * w * i) / (1 + y / (1000 - y) * (g * t * r * w * i)) := by
    rw [div_lt_div_iff₀ h1x h1y]
    nlinarith
  simp only [computeRiskValueSpec]
  exact mul_lt_mul_of_pos_right hfrac (by norm_num)

/-! ## Claims -/

/-- C1: for every finite positive incidence in the range where the spec's
prior-odds formula denotes a real number (`0 < incidence < 1000`; larger
values are the separately analysed edge case of C10) and every enumerated
combination of the five category codes, the source computation follows
exactly the specified algorithm: prior odds `incidence / (1000 - incidence)`,
combined LR as the product of the five likelihood ratios (with the effective
IAP rule), posterior odds, posterior probability
`posteriorOdds / (1 + posteriorOdds)`, and the result is the posterior
probability times 1000 rounded to exactly two decimal places. -/
theorem claim1_algorithm_refines (q : ℚ) (ga ht rm gbs ia : String)
    (h0 : 0 < q) (h1 : q < 1000)
    (hga : ga ∈ gestationalAgeCodes) (hht : ht ∈ highestTempCodes)
    (hrm : rm ∈ romCodes) (hgbs : gbs ∈ gbsStatusCodes) (hia : ia ∈ iapCodes) :
    sepsisRiskNum (.num q) ga ht rm gbs ia = computeRiskSpec q ga ht rm gbs ia := by
  obtain ⟨g, hg, hgp⟩ := gaLookup_pos hga
  obtain ⟨t, htv, htp⟩ := tempLookup_pos hht
  obtain ⟨r, hrv, hrp⟩ := romLookup_pos hrm
  obtain ⟨w, hwv, hwp⟩ := gbsLookup_pos hgbs
  obtain ⟨i, hiv, hip, hisp⟩ := iapEffective_pos gbs hia
  have hL : 0 < g * t * r * w * i :=
    mul_pos (mul_pos (mul_pos (mul_pos hgp htp) hrp) hwp) hip
  rw [sepsisRiskNum_eval q g t r w i ga ht rm gbs ia hg htv hrv hwv hiv h0 h1 hL,
    computeRiskSpec_eval q g t r w i ga ht rm gbs ia hg htv hrv hwv hisp h0]

/-- Witness for C1 at incidence 0.5 and the default codes. -/
theorem claim1_witness :
    sepsisRiskNum (.num (1/2)) "≥42" "<38" "<12" "negative" "no_iap_needed" =
      computeRiskSpec (1/2) "≥42" "<38" "<12" "negative" "no_iap_needed" :=
  claim1_algorithm_refines (1/2) "≥42" "<38" "<12" "negative" "no_iap_needed"
    (by norm_num) (by norm_num) (by decide) (by decide) (by decide) (by decide) (by decide)

/-- C2: the classifier returns `Empiric Antibiotics Recommended` for risk
above 1.18, `Enhanced Vital Signs` for risk between 0.65 and 1.18 (both
boundaries inclusive of the middle tier), and `Routine Care` below 0.65;
in particular at 0.65 and 1.18 it yields `Enhanced Vital Signs`, at 0.6499
`Routine Care`, and at 1.1801 `Empiric Antibiotics Recommended`. -/
theorem claim2_classify_thresholds :
    (∀ q : ℚ,
      ((1.18 : ℚ) < q → classify (.num q) = "Empiric Antibiotics Recommended") ∧
      ((0.65 : ℚ) ≤ q → q ≤ (1.18 : ℚ) → classify (.num q) = "Enhanced Vital Signs") ∧
      (q < (0.65 : ℚ) → classify (.num q) = "Routine Care")) ∧
    classify (.num 0.65) = "Enhanced Vital Signs" ∧
    classify (.num 1.18) = "Enhanced Vital Signs" ∧
    classify (.num 0.6499) = "Routine Care" ∧
    classify (.num 1.1801) = "Empiric Antibiotics Recommended" := by
  refine ⟨fun q => ⟨?_, ?_, ?_⟩, ?_, ?_, ?_, ?_⟩
  · intro h
    simp [classify, JSNum.gt, JSNum.lt, h]
  · intro h1 h2
    simp [classify, JSNum.gt, JSNum.lt, JSNum.ge, JSNum.le, not_lt.2 h2, h1, h2]
  · intro h
    have h1 : ¬ ((1.18 : ℚ) < q) := not_lt.2 (le_of_lt (lt_of_lt_of_le h (by norm_num)))
    have h2 : ¬ ((0.65 : ℚ) ≤ q) := not_le.2 h
    simp [classify, JSNum.gt, JSNum.lt, JSNum.ge, JSNum.le, h1, h2]
  · with_unfolding_all decide
  · with_unfolding_all decide
  · with_unfolding_all decide
  · with_unfolding_all decide

/-- Witness for C2 at the concrete risk value 2. -/
theorem claim2_witness : classify (.num 2) = "Empiric Antibiotics Recommended" :=
  (claim2_classify_thresholds.1 2).1 (by norm_num)

/-- C3 as stated is false: a positive non-finite incidence passes the
guard (`isNaN(x) || x <= 0` rejects only `NaN` and non-positive values),
so `computeRisk` with the incidence string `Infinity` does not return
`0.00`. -/
theorem claim3_counterexample :
    sepsisRisk "Infinity" "≥42" "<38" "<12" "negative" "no_iap_needed" ≠ "0.00" := by
  with_unfolding_all decide

/-- C3 amended: `computeRisk` returns `0.00` immediately, independently of
every category code, whenever the parsed incidence is `NaN` (including
non-numeric input) or `<= 0` — but not for positive non-finite values,
which pass the guard. -/
theorem claim3_amended_guard (inc ga ht rm gbs ia : String)
    (h : (parseFloat inc).isNaN = true ∨ (parseFloat inc).le (.num 0) = true) :
    sepsisRisk inc ga ht rm gbs ia = "0.00" := by
  have hg : incidenceInvalid (parseFloat inc) = true := by
    rcases h with h | h <;> simp [incidenceInvalid, h]
  simp [sepsisRisk, sepsisRiskNum, hg]

/-- Witness for the amended C3 at incidence `-1`. -/
theorem claim3_witness :
    sepsisRisk "-1" "≥42" "<38" "<12" "negative" "no_iap_needed" = "0.00" :=
  claim3_amended_guard "-1" "≥42" "<38" "<12" "negative" "no_iap_needed"
    (Or.inr (by with_unfolding_all decide))

/-- C4: whenever GBS status is not `positive`, the computed risk is
identical for every IAP code to the risk with `no_iap_needed`; the
effective IAP likelihood ratio is 1.0 whenever `iap = no_iap_needed` or
GBS is not positive, and is the table value for the chosen IAP code
otherwise. -/
theorem claim4_iap_suppression :
    (∀ inc ga ht rm gbs ia : String, gbs ≠ "positive" →
        sepsisRisk inc ga ht rm gbs ia = sepsisRisk inc ga ht rm gbs "no_iap_needed") ∧
    (∀ gbs ia : String, (ia = "no_iap_needed" ∨ gbs ≠ "positive") →
        lrIapEffective gbs ia = .num 1) ∧
    (∀ ia : String, ia ≠ "no_iap_needed" →
        lrIapEffective "positive" ia = toJSNum (tableLookup LIKELIHOOD_RATIOS_iap ia)) := by
  refine ⟨?_, ?_, ?_⟩
  · intro inc ga ht rm gbs ia hgbs
    have h : lrIapEffective gbs ia = lrIapEffective gbs "no_iap_needed" := by
      simp [lrIapEffective, hgbs]
    simp only [sepsisRisk, sepsisRiskNum, sepsisRiskValue, h]
  · intro gbs ia h
    simp only [lrIapEffective, if_pos h]
  · intro ia h
    have : ¬ (ia = "no_iap_needed" ∨ ("positive" : String) ≠ "positive") := by
      simp [h]
    simp only [lrIapEffective, if_neg this]

/-- Witness for C4: GBS-negative risk is unchanged by an adequate-IAP code. -/
theorem claim4_witness :
    sepsisRisk "0.5" "≥42" "<38" "<12" "negative" "adequate_pen_amp" =
      sepsisRisk "0.5" "≥42" "<38" "<12" "negative" "no_iap_needed" :=
  claim4_iap_suppression.1 "0.5" "≥42" "<38" "<12" "negative" "adequate_pen_amp"
    (by decide)

/-- C5: the likelihood-ratio table holds exactly the published model
coefficients, with `no_iap_needed` and `inadequate_or_no` both mapping to
likelihood ratio 1.0. -/
theorem claim5_table_coefficients :
    tableLookup LIKELIHOOD_RATIOS_gestationalAge "≥42" = some 1.4 ∧
    tableLookup LIKELIHOOD_RATIOS_gestationalAge "41 0/7-41 6/7" = some 1.1 ∧
    tableLookup LIKELIHOOD_RATIOS_gestationalAge "40 0/7-40 6/7" = some 0.8 ∧
    tableLookup LIKELIHOOD_RATIOS_gestationalAge "39 0/7-39 6/7" = some 0.6 ∧
    tableLookup LIKELIHOOD_RATIOS_gestationalAge "38 0/7-38 6/7" = some 0.5 ∧
    tableLookup LIKELIHOOD_RATIOS_gestationalAge "37 0/7-37 6/7" = some 0.4 ∧
    tableLookup LIKELIHOOD_RATIOS_gestationalAge "36 0/7-36 6/7" = some 0.7 ∧
    tableLookup LIKELIHOOD_RATIOS_gestationalAge "35 0/7-35 6/7" = some 1.3 ∧
    tableLookup LIKELIHOOD_RATIOS_gestationalAge "≤34 6/7" = some 2.3 ∧
    tableLookup LIKELIHOOD_RATIOS_highestTemp "<38" = some 0.4 ∧
    tableLookup LIKELIHOOD_RATIOS_highestTemp "≥38" = some 3.7 ∧
    tableLookup LIKELIHOOD_RATIOS_rom "<12" = some 0.6 ∧
    tableLookup LIKELIHOOD_RATIOS_rom "12-18" = some 1.3 ∧
    tableLookup LIKELIHOOD_RATIOS_rom "18-24" = some 1.7 ∧
    tableLookup LIKELIHOOD_RATIOS_rom ">24" = some 2.1 ∧
    tableLookup LIKELIHOOD_RATIOS_gbsStatus "positive" = some 2.0 ∧
    tableLookup LIKELIHOOD_RATIOS_gbsStatus "negative" = some 0.4 ∧
    tableLookup LIKELIHOOD_RATIOS_gbsStatus "unknown" = some 1.0 ∧
    tableLookup LIKELIHOOD_RATIOS_iap "adequate_pen_amp" = some 0.2 ∧
    tableLookup LIKELIHOOD_RATIOS_iap "adequate_cefazolin" = some 0.4 ∧
    tableLookup LIKELIHOOD_RATIOS_iap "adequate_clinda_vanco" = some 0.9 ∧
    tableLookup LIKELIHOOD_RATIOS_iap "inadequate_or_no" = some 1.0 ∧
    tableLookup LIKELIHOOD_RATIOS_iap "no_iap_needed" = some 1.0 ∧
    LIKELIHOOD_RATIOS_gestationalAge.length = 9 ∧
    LIKELIHOOD_RATIOS_highestTemp.length = 2 ∧
    LIKELIHOOD_RATIOS_rom.length = 4 ∧
    LIKELIHOOD_RATIOS_gbsStatus.length = 3 ∧
    LIKELIHOOD_RATIOS_iap.length = 5 := by
  with_unfolding_all decide

/-- C6 as stated is false: because the result is rounded to two decimal
places, two distinct positive incidences can produce the same result
string, so the result does not strictly increase. -/
theorem claim6_counterexample :
    (1/2 : ℚ) < 500001/1000000 ∧
    sepsisRisk "0.500001" "≥42" "<38" "<12" "negative" "no_iap_needed" =
      sepsisRisk "0.5" "≥42" "<38" "<12" "negative" "no_iap_needed" := by
  constructor
  · norm_num
  · with_unfolding_all decide

/-- C6 amended: for fixed enumerated codes and `0 < a < b < 1000`, the
unrounded risk value (posterior probability times 1000) strictly
increases with incidence, and the rounded two-decimal result is
monotone non-decreasing (its hundredths count does not decrease). -/
theorem claim6_amended_monotone (a b : ℚ) (ga ht rm gbs ia : String)
    (hga : ga ∈ gestationalAgeCodes) (hht : ht ∈ highestTempCodes)
    (hrm : rm ∈ romCodes) (hgbs : gbs ∈ gbsStatusCodes) (hia : ia ∈ iapCodes)
    (ha : 0 < a) (hab : a < b) (hb : b < 1000) :
    ∃ va vb : ℚ,
      sepsisRiskValue (.num a) ga ht rm gbs ia = .num va ∧
      sepsisRiskValue (.num b) ga ht rm gbs ia = .num vb ∧
      va < vb ∧ round2 va ≤ round2 vb := by
  obtain ⟨g, hg, hgp⟩ := gaLookup_pos hga
  obtain ⟨t, htv, htp⟩ := tempLookup_pos hht
  obtain ⟨r, hrv, hrp⟩ := romLookup_pos hrm
  obtain ⟨w, hwv, hwp⟩ := gbsLookup_pos hgbs
  obtain ⟨i, hiv, hip, _⟩ := iapEffective_pos gbs hia
  have hL : 0 < g * t * r * w * i :=
    mul_pos (mul_pos (mul_pos (mul_pos hgp htp) hrp) hwp) hip
  have hlt := computeRiskValueSpec_lt a b g t r w i ha hab hb hL
  refine ⟨computeRiskValueSpec a g t r w i, computeRiskValueSpec b g t r w i,
    sepsisRiskValue_eval a g t r w i ga ht rm gbs ia hg htv hrv hwv hiv ha
      (lt_trans hab hb) hL,
    sepsisRiskValue_eval b g t r w i ga ht rm gbs ia hg htv hrv hwv hiv
      (lt_trans ha hab) hb hL,
    hlt, Int.floor_le_floor (by linarith)⟩

/-- Witness for the amended C6 at incidences 0.5 and 1 with default codes. -/
theorem claim6_witness :
    ∃ va vb : ℚ,
      sepsisRiskValue (.num (1/2)) "≥42" "<38" "<12" "negative" "no_iap_needed" = .num va ∧
      sepsisRiskValue (.num 1) "≥42" "<38" "<12" "negative" "no_iap_needed" = .num vb ∧
      va < vb ∧ round2 va ≤ round2 vb :=
  claim6_amended_monotone (1/2) 1 "≥42" "<38" "<12" "negative" "no_iap_needed"
    (by decide) (by decide) (by decide) (by decide) (by decide)
    (by norm_num) (by norm_num) (by norm_num)

/-- C7: for every enumerated code combination and every preset incidence,
`computeRisk` returns a non-negative finite number rendered by the
two-decimal fixed-point formatter — `fmt2` of a natural number of
hundredths. -/
theorem claim7_two_decimal_format (inc ga ht rm gbs ia : String)
    (hinc : inc ∈ incidencePresets)
    (hga : ga ∈ gestationalAgeCodes) (hht : ht ∈ highestTempCodes)
    (hrm : rm ∈ romCodes) (hgbs : gbs ∈ gbsStatusCodes) (hia : ia ∈ iapCodes) :
    ∃ n : ℕ, sepsisRisk inc ga ht rm gbs ia = fmt2 n := by
  obtain ⟨g, hg, hgp⟩ := gaLookup_pos hga
  obtain ⟨t, htv, htp⟩ := tempLookup_pos hht
  obtain ⟨r, hrv, hrp⟩ := romLookup_pos hrm
  obtain ⟨w, hwv, hwp⟩ := gbsLookup_pos hgbs
  obtain ⟨i, hiv, hip, _⟩ := iapEffective_pos gbs hia
  have hL : 0 < g * t * r * w * i :=
    mul_pos (mul_pos (mul_pos (mul_pos hgp htp) hrp) hwp) hip
  have hq : ∃ q : ℚ, parseFloat inc = .num q ∧ 0 < q ∧ q < 1000 := by
    fin_cases hinc
    · exact ⟨1/5, by with_unfolding_all decide, by norm_num, by norm_num⟩
    · exact ⟨3/10, by with_unfolding_all decide, by norm_num, by norm_num⟩
    · exact ⟨1/2, by with_unfolding_all decide, by norm_num, by norm_num⟩
    · exact ⟨7/10, by with_unfolding_all decide, by norm_num, by norm_num⟩
    · exact ⟨1, by with_unfolding_all decide, by norm_num, by norm_num⟩
  obtain ⟨q, hqe, h0, h1⟩ := hq
  refine ⟨(round2 (computeRiskValueSpec q g t r w i)).toNat, ?_⟩
  rw [sepsisRisk, hqe,
    sepsisRiskNum_eval q g t r w i ga ht rm gbs ia hg htv hrv hwv hiv h0 h1 hL]

/-- Witness for C7 at the default inputs. -/
theorem claim7_witness :
    ∃ n : ℕ, sepsisRisk "0.5" "≥42" "<38" "<12" "negative" "no_iap_needed" = fmt2 n :=
  claim7_two_decimal_format "0.5" "≥42" "<38" "<12" "negative" "no_iap_needed"
    (by decide) (by decide) (by decide) (by decide) (by decide) (by decide)

/-- C8 as stated is false: looking up a non-enumerated code does not fail
fast; it yields `undefined` (`none`), which the arithmetic silently
coerces to `NaN` and propagates into the result string `NaN`. -/
theorem claim8_counterexample :
    tableLookup LIKELIHOOD_RATIOS_gestationalAge "bogus" = none ∧
    sepsisRisk "0.5" "bogus" "<38" "<12" "negative" "no_iap_needed" = "NaN" := by
  with_unfolding_all decide

/-- C8 amended: lookup by every enumerated code succeeds, but lookup by a
non-enumerated code yields `undefined`, which silently propagates through
the arithmetic and makes `computeRisk` return the string `NaN` — no
assertion or exception interrupts the computation. -/
theorem claim8_amended_lookup :
    gestationalAgeCodes.all
      (fun c => (tableLookup LIKELIHOOD_RATIOS_gestationalAge c).isSome) = true ∧
    highestTempCodes.all
      (fun c => (tableLookup LIKELIHOOD_RATIOS_highestTemp c).isSome) = true ∧
    romCodes.all (fun c => (tableLookup LIKELIHOOD_RATIOS_rom c).isSome) = true ∧
    gbsStatusCodes.all
      (fun c => (tableLookup LIKELIHOOD_RATIOS_gbsStatus c).isSome) = true ∧
    iapCodes.all (fun c => (tableLookup LIKELIHOOD_RATIOS_iap c).isSome) = true ∧
    (∀ (q : ℚ) (ga ht rm gbs ia : String), 0 < q →
      tableLookup LIKELIHOOD_RATIOS_gestationalAge ga = none →
      sepsisRiskNum (.num q) ga ht rm gbs ia = "NaN") := by
  refine ⟨by decide, by decide, by decide, by decide, by decide, ?_⟩
  intro q ga ht rm gbs ia h0 hga
  have hg : incidenceInvalid (.num q) = false := by
    rw [incidenceInvalid_num, decide_eq_false_iff_not]
    exact not_le.2 h0
  have hval : sepsisRiskValue (.num q) ga ht rm gbs ia = .nan := by
    simp only [sepsisRiskValue, hga, toJSNum, JSNum.nan_mul, JSNum.mul_nan,
      JSNum.add_nan, JSNum.nan_div]
  rw [sepsisRiskNum, hg, hval]
  simp [JSNum.toFixed2]

/-- Witness for the amended C8: silent NaN propagation at a concrete
unknown gestational-age code. -/
theorem claim8_witness :
    sepsisRiskNum (.num (1/2)) "bogus" "<38" "<12" "negative" "no_iap_needed" = "NaN" :=
  claim8_amended_lookup.2.2.2.2.2 (1/2) "bogus" "<38" "<12" "negative" "no_iap_needed"
    (by norm_num) (by decide)

/-- C9: in the state-transition model of the form, a GBS transition to any
non-positive value force-resets IAP to `no_iap_needed` in the same step;
every reachable settled state satisfies the invariant that a non-positive
GBS status implies IAP is `no_iap_needed`; and changing IAP never changes
the GBS status. -/
theorem claim9_gbs_iap_sync :
    (∀ s : FormState, Reachable s → gbsIapInvariant s) ∧
    (∀ (s : FormState) (v : String), v ≠ "positive" →
        (applyEvent s (.setGbsStatus v)).iap = "no_iap_needed") ∧
    (∀ (s : FormState) (v : String),
        (applyEvent s (.setIap v)).gbsStatus = s.gbsStatus) := by
  refine ⟨?_, ?_, ?_⟩
  · intro s hs
    induction hs with
    | init => intro h; rfl
    | step s' hs e ih =>
      cases e with
      | setIncidence v => exact ih
      | setGestationalAge v => exact ih
      | setHighestTemp v => exact ih
      | setRom v => exact ih
      | setGbsStatus v =>
        intro h
        by_cases hv : v = "positive"
        · simp [applyEvent, syncIapEffect, hv] at h
        · simp [applyEvent, syncIapEffect, hv]
      | setIap v =>
        intro h
        by_cases hg : s'.gbsStatus = "positive"
        · simp only [applyEvent, if_pos hg] at h
          exact absurd hg h
        · simp only [applyEvent, if_neg hg] at h ⊢
          exact ih h
      | reset => intro h; rfl
  · intro s v hv
    simp [applyEvent, syncIapEffect, hv]
  · intro s v
    by_cases hg : s.gbsStatus = "positive" <;> simp [applyEvent, hg]

/-- Witness for C9: a GBS change to `unknown` from the initial state
resets IAP. -/
theorem claim9_witness :
    (applyEvent initialState (.setGbsStatus "unknown")).iap = "no_iap_needed" :=
  claim9_gbs_iap_sync.2.1 initialState "unknown" (by decide)

/-- C10: the incidence guard rejects only `NaN` and values `<= 0`, so a
positive non-finite incidence (the string `Infinity`) or one of at least
1000 passes the guard; `computeRisk` then returns the string `NaN` (for
`Infinity` and for exactly 1000) or a negative value (for 2000), and the
derived recommendation for each such input is `Routine Care`, because
`parseFloat` of these result strings fails both threshold comparisons. -/
theorem claim10_edge_cases :
    (∀ q : ℚ, incidenceInvalid (.num q) = decide (q ≤ 0)) ∧
    incidenceInvalid .inf = false ∧
    incidenceInvalid .nan = true ∧
    incidenceInvalid .ninf = true ∧
    parseFloat "Infinity" = .inf ∧
    sepsisRisk "Infinity" "≥42" "<38" "<12" "negative" "no_iap_needed" = "NaN" ∧
    sepsisRisk "1000" "≥42" "<38" "<12" "negative" "no_iap_needed" = "NaN" ∧
    sepsisRisk "2000" "≥42" "<38" "<12" "negative" "no_iap_needed" = "-367.61" ∧
    recommendation "NaN" = "Routine Care" ∧
    recommendation
      (sepsisRisk "Infinity" "≥42" "<38" "<12" "negative" "no_iap_needed") = "Routine Care" ∧
    recommendation
      (sepsisRisk "1000" "≥42" "<38" "<12" "negative" "no_iap_needed") = "Routine Care" ∧
    recommendation
      (sepsisRisk "2000" "≥42" "<38" "<12" "negative" "no_iap_needed") = "Routine Care" := by
  refine ⟨fun q => rfl, rfl, rfl, rfl, by with_unfolding_all decide,
    by with_unfolding_all decide, by with_unfolding_all decide,
    by with_unfolding_all decide, by with_unfolding_all decide,
    by with_unfolding_all decide, by with_unfolding_all decide,
    by with_unfolding_all decide⟩

end NeonatalEOS
